import Mathlib

/-
Verification development for the Bevy Pong simulation core (src/main.rs).

The embedding uses exact rational arithmetic (ℚ) in place of f32.  All
quantities appearing in the verified claims (positions, velocities, the
constants below) are small dyadic / decimal values for which f32 arithmetic
in the source is exact or whose truth does not depend on rounding, so ℚ is a
faithful model of the computations at issue.

Source constants (src/main.rs, lines 10-19) and geometry are translated
verbatim.  The collision primitive `collide` is the shallow embedding of
`bevy::sprite::collide_aabb::collide` (bevy 0.6/0.7, the engine version this
source compiles against): axis-aligned bounding-box overlap with side
classification, ties broken by penetration depth, `Inside` when a rectangle
spans the other on both axes.
-/

-- The toolchain marks the primitive `Rat` operations `@[irreducible]`, which
-- blocks `decide`-style kernel evaluation of concrete rational arithmetic.
-- Restore the default reducibility locally; this has no logical content.
attribute [local semireducible] Rat.sub Rat.add Rat.mul Rat.inv

namespace BevyPong

/-- Two-dimensional vector over ℚ, modelling bevy's `Vec2` (f32 pair). -/
structure Vec2 where
  x : ℚ
  y : ℚ
deriving DecidableEq, Repr

/-- Side classification returned by bevy's `collide_aabb::collide`. -/
inductive Collision where
  | Left
  | Right
  | Top
  | Bottom
  | Inside
deriving DecidableEq, Repr

/-- Overlap guard of `collide_aabb::collide`: the two AABBs intersect on both
axes (strict inequalities, exactly as in the source:
`a_min.x < b_max.x && a_max.x > b_min.x && a_min.y < b_max.y && a_max.y > b_min.y`). -/
def overlapping (aPos aSize bPos bSize : Vec2) : Prop :=
  aPos.x - aSize.x / 2 < bPos.x + bSize.x / 2 ∧
  aPos.x + aSize.x / 2 > bPos.x - bSize.x / 2 ∧
  aPos.y - aSize.y / 2 < bPos.y + bSize.y / 2 ∧
  aPos.y + aSize.y / 2 > bPos.y - bSize.y / 2

instance (aPos aSize bPos bSize : Vec2) : Decidable (overlapping aPos aSize bPos bSize) :=
  inferInstanceAs (Decidable (aPos.x - aSize.x / 2 < bPos.x + bSize.x / 2 ∧
    aPos.x + aSize.x / 2 > bPos.x - bSize.x / 2 ∧
    aPos.y - aSize.y / 2 < bPos.y + bSize.y / 2 ∧
    aPos.y + aSize.y / 2 > bPos.y - bSize.y / 2))

/-- Side classification of `collide_aabb::collide`, evaluated only when the
overlap guard holds.  Every branch of the source returns `Some side`, so the
side computation is factored out here; `collide` below re-applies the guard. -/
def collideSide (aPos aSize bPos bSize : Vec2) : Collision :=
  let aMinX := aPos.x - aSize.x / 2
  let aMaxX := aPos.x + aSize.x / 2
  let aMinY := aPos.y - aSize.y / 2
  let aMaxY := aPos.y + aSize.y / 2
  let bMinX := bPos.x - bSize.x / 2
  let bMaxX := bPos.x + bSize.x / 2
  let bMinY := bPos.y - bSize.y / 2
  let bMaxY := bPos.y + bSize.y / 2
  let xColl : Option (Collision × ℚ) :=
    if aMinX < bMinX ∧ aMaxX > bMinX ∧ aMaxX < bMaxX then
      some (Collision.Left, bMinX - aMaxX)
    else if aMinX > bMinX ∧ aMinX < bMaxX ∧ aMaxX > bMaxX then
      some (Collision.Right, aMinX - bMaxX)
    else
      none
  let yColl : Option (Collision × ℚ) :=
    if aMinY < bMinY ∧ aMaxY > bMinY ∧ aMaxY < bMaxY then
      some (Collision.Bottom, bMinY - aMaxY)
    else if aMinY > bMinY ∧ aMinY < bMaxY ∧ aMaxY > bMaxY then
      some (Collision.Top, aMinY - bMaxY)
    else
      none
  match xColl, yColl with
  | some (xc, xd), some (yc, yd) => if |yd| < |xd| then yc else xc
  | some (xc, _), none => xc
  | none, some (yc, _) => yc
  | none, none => Collision.Inside

/-- Shallow embedding of `bevy::sprite::collide_aabb::collide`.
`aPos`/`bPos` are rectangle centers, `aSize`/`bSize` full extents. -/
def collide (aPos aSize bPos bSize : Vec2) : Option Collision :=
  if overlapping aPos aSize bPos bSize then
    some (collideSide aPos aSize bPos bSize)
  else
    none

-- Constants from src/main.rs, lines 10-19.

/-- Physics timestep, `TIME_STEP: f32 = 1.0 / 60.0`. -/
def TIME_STEP : ℚ := 1 / 60

/-- Court width, `WINDOW_WIDTH: f32 = 800.0`. -/
def WINDOW_WIDTH : ℚ := 800

/-- Court height, `WINDOW_HEIGHT: f32 = 600.0`. -/
def WINDOW_HEIGHT : ℚ := 600

/-- Paddle extent, `PADDLE_SIZE = [6., 46.]`. -/
def PADDLE_SIZE : Vec2 := ⟨6, 46⟩

/-- Ball extent, `BALL_SIZE = [8., 8.]`. -/
def BALL_SIZE : Vec2 := ⟨8, 8⟩

/-- Spin steepness, `BOUNCE_ANGLE_MULTIPLIER: f32 = 22.0`. -/
def BOUNCE_ANGLE_MULTIPLIER : ℚ := 22

/-- Serve speed, `BALL_SPEED: f32 = 500.`. -/
def BALL_SPEED : ℚ := 500

/-- Collision events sent to the audio system (`enum CollisionEvent`). -/
inductive CollisionEvent where
  | Bounce
  | Goal
deriving DecidableEq, Repr

/-- Ball entity: `Transform.translation`, `Velocity`, and the sprite
`custom_size` it was spawned with (always `BALL_SIZE`). -/
structure BallState where
  pos : Vec2
  vel : Vec2
  size : Vec2
deriving DecidableEq, Repr

/-- Score resource (`struct Scoreboard { player: u16, opponent: u16 }`).
Modelled with ℕ; a real session stays far below the u16 overflow point
(65536 goals), at which the Rust increment is an arithmetic-overflow error
rather than a wrap in debug builds. -/
structure Scoreboard where
  player : ℕ
  opponent : ℕ
deriving DecidableEq, Repr

/-- Bevy `Timer` in non-repeating mode, as used for `BallSpawnTimer`
(`Timer::from_seconds(0.5, false)`).  `tick` advances elapsed time;
once finished, further ticks report `justFinished = false` until `reset`. -/
structure Timer where
  elapsed : ℚ
  duration : ℚ
  finished : Bool
  justFinished : Bool
deriving DecidableEq, Repr

/-- Bevy `Timer::tick` for a non-repeating, unpaused timer: if already
finished, only clear `justFinished`; otherwise accumulate the delta and
finish (clamping elapsed to the duration) when the duration is reached. -/
def Timer.tick (t : Timer) (delta : ℚ) : Timer :=
  if t.finished then
    { t with justFinished := false }
  else if t.elapsed + delta ≥ t.duration then
    { t with elapsed := t.duration, finished := true, justFinished := true }
  else
    { t with elapsed := t.elapsed + delta, justFinished := false }

/-- Bevy `Timer::reset`: elapsed time and finished state cleared. -/
def Timer.reset (t : Timer) : Timer :=
  { t with elapsed := 0, finished := false, justFinished := false }

/-- Whole simulation state owned by the engine for one session: the
zero-or-one ball, the two paddles (player on the left at x = -374, opponent
on the right at x = 374, per `setup`), the opponent's `Velocity`, the
`Scoreboard` and `BallSpawnTimer` and `PlayerTurn` resources, and the
`CollisionEvent`s sent by the most recent `process_collisions` run. -/
structure World where
  ball : Option BallState
  playerPos : Vec2
  opponentPos : Vec2
  opponentVel : Vec2
  scoreboard : Scoreboard
  spawnTimer : Timer
  playerTurn : Bool
  events : List CollisionEvent
deriving DecidableEq, Repr

/-- Session start state from `main`/`setup`: no ball, paddles at
`(∓(WINDOW_WIDTH/2 - 26), 0)`, scores 0, `PlayerTurn(true)`,
`BallSpawnTimer(Timer::from_seconds(0.5, false))`. -/
def initialWorld : World :=
  { ball := none
    playerPos := ⟨-WINDOW_WIDTH / 2 + 26, 0⟩
    opponentPos := ⟨WINDOW_WIDTH / 2 - 26, 0⟩
    opponentVel := ⟨0, 0⟩
    scoreboard := { player := 0, opponent := 0 }
    spawnTimer := { elapsed := 0, duration := 1 / 2, finished := false, justFinished := false }
    playerTurn := true
    events := [] }

/-- Rust `f32::clamp`: identity inside the range, saturates outside. -/
def clampQ (x lo hi : ℚ) : ℚ :=
  if x < lo then lo else if x > hi then hi else x

/-- System `player_controller`: sum the (negated) mouse deltas, add to the
player paddle's y, clamp so the paddle stays on screen. -/
def player_controller (mouseDeltaY : List ℚ) (w : World) : World :=
  let accumulated_delta_y : ℚ := (mouseDeltaY.map (fun d => -d)).sum
  let new_position := w.playerPos.y + accumulated_delta_y
  let lower_bound := -WINDOW_HEIGHT / 2 + PADDLE_SIZE.y / 2 + 5
  let upper_bound := WINDOW_HEIGHT / 2 - PADDLE_SIZE.y / 2 - 5
  { w with playerPos := ⟨w.playerPos.x, clampQ new_position lower_bound upper_bound⟩ }

/-- System `opponent_controller`: when a ball exists and moves toward the
opponent (positive x velocity), chase it proportionally (gain 13) with the
speed clamped to ±450; otherwise stop. -/
def opponent_controller (w : World) : World :=
  match w.ball with
  | some b =>
    if b.vel.x > 0 then
      { w with opponentVel :=
          ⟨w.opponentVel.x, clampQ ((b.pos.y - w.opponentPos.y) * 13) (-450) 450⟩ }
    else
      { w with opponentVel := ⟨w.opponentVel.x, 0⟩ }
  | none => { w with opponentVel := ⟨w.opponentVel.x, 0⟩ }

/-- System `apply_velocity`: every entity with both a `Transform` and a
`Velocity` (the ball and the opponent paddle) moves by velocity × timestep. -/
def apply_velocity (w : World) : World :=
  { w with
    ball := w.ball.map (fun b =>
      { b with pos := ⟨b.pos.x + b.vel.x * TIME_STEP, b.pos.y + b.vel.y * TIME_STEP⟩ })
    opponentPos := ⟨w.opponentPos.x + w.opponentVel.x * TIME_STEP,
                    w.opponentPos.y + w.opponentVel.y * TIME_STEP⟩ }

/-- Wall strip test named `top_wall_collision` in the source (the strip is
centered at `(0, -WINDOW_HEIGHT/2 - 20)`, i.e. 20 units past the lower
edge; the source's top/bottom names are swapped, with no behavioural
consequence since both strips produce the same effect). -/
def top_wall_collision (b : BallState) : Option Collision :=
  collide b.pos b.size ⟨0, -WINDOW_HEIGHT / 2 - 20⟩ ⟨WINDOW_WIDTH, 40⟩

/-- Wall strip test named `bottom_wall_collision` in the source (strip
centered at `(0, WINDOW_HEIGHT/2 + 20)`, 20 units past the upper edge). -/
def bottom_wall_collision (b : BallState) : Option Collision :=
  collide b.pos b.size ⟨0, WINDOW_HEIGHT / 2 + 20⟩ ⟨WINDOW_WIDTH, 40⟩

/-- Left gutter test: strip centered at `(-WINDOW_WIDTH/2 + 3, 0)` of extent
`(26, WINDOW_HEIGHT)`. -/
def left_gutter_collision (b : BallState) : Option Collision :=
  collide b.pos b.size ⟨-WINDOW_WIDTH / 2 + 3, 0⟩ ⟨26, WINDOW_HEIGHT⟩

/-- Right gutter test: strip centered at `(WINDOW_WIDTH/2, 3)` of extent
`(26, WINDOW_HEIGHT)` (the source puts the `3.` offset in the y coordinate
here, unlike the left gutter's x offset). -/
def right_gutter_collision (b : BallState) : Option Collision :=
  collide b.pos b.size ⟨WINDOW_WIDTH / 2, 3⟩ ⟨26, WINDOW_HEIGHT⟩

/-- Top/bottom wall step of `process_collisions`: one combined check — if
either strip overlaps, the vertical velocity is negated once and one
`Bounce` event is sent. -/
def wallStep (b : BallState) : Vec2 × List CollisionEvent :=
  if (top_wall_collision b).isSome || (bottom_wall_collision b).isSome then
    (⟨b.vel.x, -b.vel.y⟩, [CollisionEvent.Bounce])
  else
    (b.vel, [])

/-- Closure `bounce_off_paddle` of `process_collisions`: negate the
horizontal velocity and set the vertical velocity from the strike offset. -/
def bounce_off_paddle (ballPos paddlePos v : Vec2) : Vec2 :=
  ⟨-v.x, (ballPos.y - paddlePos.y) * BOUNCE_ANGLE_MULTIPLIER⟩

/-- Per-collider body of the paddle loop in `process_collisions`: only a
`Left` or `Right` classification bounces; every other outcome (no overlap,
`Top`, `Bottom`, `Inside`) is ignored. -/
def paddleCheck (ballPos ballSize paddlePos paddleSize v : Vec2) :
    Vec2 × List CollisionEvent :=
  match collide ballPos ballSize paddlePos paddleSize with
  | some Collision.Left => (bounce_off_paddle ballPos paddlePos v, [CollisionEvent.Bounce])
  | some Collision.Right => (bounce_off_paddle ballPos paddlePos v, [CollisionEvent.Bounce])
  | _ => (v, [])

/-- Collider query of `process_collisions`: both paddles (their sprite
`custom_size` is `PADDLE_SIZE`). -/
def colliders (w : World) : List Vec2 :=
  [w.playerPos, w.opponentPos]

/-- Loop over the collider query, threading the mutable ball velocity. -/
def paddleLoop (ballPos ballSize : Vec2) :
    List Vec2 → Vec2 → Vec2 × List CollisionEvent
  | [], v => (v, [])
  | p :: ps, v =>
    let r := paddleCheck ballPos ballSize p PADDLE_SIZE v
    let rest := paddleLoop ballPos ballSize ps r.1
    (rest.1, r.2 ++ rest.2)

/-- Body of `process_collisions` for an existing ball: wall bounce, then the
two gutter (goal) checks — each despawning the ball, resetting the serve
timer, incrementing a score and sending `Goal` — then the paddle loop.
The `despawn` is a deferred `Commands` operation, so the paddle loop still
runs and the ball entity disappears only after the system. -/
def resolveBall (w : World) (b : BallState) : World :=
  let vel1 := (wallStep b).1
  let ev1 := (wallStep b).2
  let leftHit := (left_gutter_collision b).isSome
  let rightHit := (right_gutter_collision b).isSome
  let despawn := leftHit || rightHit
  let vel2 := (paddleLoop b.pos b.size (colliders w) vel1).1
  let ev3 := (paddleLoop b.pos b.size (colliders w) vel1).2
  { w with
    ball := if despawn then none else some { b with vel := vel2 }
    spawnTimer := if despawn then w.spawnTimer.reset else w.spawnTimer
    scoreboard :=
      { player := w.scoreboard.player + (if rightHit then 1 else 0)
        opponent := w.scoreboard.opponent + (if leftHit then 1 else 0) }
    events := ev1
      ++ ((if leftHit then [CollisionEvent.Goal] else [])
          ++ (if rightHit then [CollisionEvent.Goal] else []))
      ++ ev3 }

/-- System `process_collisions`: no-op (beyond sending no events) when no
ball exists; otherwise resolve walls, gutters and paddles. -/
def process_collisions (w : World) : World :=
  match w.ball with
  | some b => resolveBall w b
  | none => { w with events := [] }

/-- One fixed 1/60 s physics tick: the two controllers run before
`apply_velocity`, and `process_collisions` runs after all of them, exactly
as ordered in `main`'s fixed-timestep `SystemSet`. -/
def fixedTick (mouseDeltaY : List ℚ) (w : World) : World :=
  process_collisions (apply_velocity (opponent_controller (player_controller mouseDeltaY w)))

/-- System `ball_spawner` (runs on the variable frame clock): tick the spawn
timer by the frame delta; on the tick where it just finished, spawn the ball
at the center with horizontal speed `BALL_SPEED` directed by `PlayerTurn`,
then flip the turn flag. -/
def ball_spawner (delta : ℚ) (w : World) : World :=
  if (w.spawnTimer.tick delta).justFinished then
    { w with
      spawnTimer := w.spawnTimer.tick delta
      ball := some { pos := ⟨0, 0⟩,
                     vel := ⟨BALL_SPEED * (if w.playerTurn then -1 else 1), 0⟩,
                     size := BALL_SIZE }
      playerTurn := !w.playerTurn }
  else
    { w with spawnTimer := w.spawnTimer.tick delta }

/-- A frame-clock advance only runs `ball_spawner`; fold over frame deltas. -/
def runFrames : List ℚ → World → World
  | [], w => w
  | d :: ds, w => runFrames ds (ball_spawner d w)

/-- One scheduler step of the whole app: either a fixed physics tick (with
the mouse deltas drained that tick) or a variable-rate frame advancing the
serve scheduler. -/
inductive GameStep where
  | fixed : List ℚ → GameStep
  | frame : ℚ → GameStep

/-- Interpret one scheduler step. -/
def runStep : GameStep → World → World
  | GameStep.fixed ds, w => fixedTick ds w
  | GameStep.frame d, w => ball_spawner d w

/-- Interpret a sequence of scheduler steps. -/
def runSteps : List GameStep → World → World
  | [], w => w
  | s :: ss, w => runSteps ss (runStep s w)

-- Shared helper lemmas about the embedded systems.

/-- When a ball exists, `process_collisions` runs `resolveBall`. -/
theorem process_collisions_eq_resolve (w : World) (b : BallState)
    (hb : w.ball = some b) : process_collisions w = resolveBall w b := by
  unfold process_collisions
  rw [hb]

/-- A successful `collide` implies the AABB overlap guard. -/
theorem overlapping_of_collide_eq_some {aPos aSize bPos bSize : Vec2} {c : Collision}
    (h : collide aPos aSize bPos bSize = some c) :
    overlapping aPos aSize bPos bSize := by
  by_cases hov : overlapping aPos aSize bPos bSize
  · exact hov
  · rw [collide, if_neg hov] at h
    exact absurd h (Option.noConfusion)

/-- The AABB overlap guard makes `collide` succeed. -/
theorem collide_isSome_of_overlapping {aPos aSize bPos bSize : Vec2}
    (h : overlapping aPos aSize bPos bSize) :
    (collide aPos aSize bPos bSize).isSome = true := by
  rw [collide, if_pos h]
  rfl

/-- A `Left` or `Right` classification makes `paddleCheck` bounce: negated
horizontal velocity, spin-set vertical velocity, one `Bounce` event. -/
theorem paddleCheck_hit {ballPos ballSize paddlePos paddleSize : Vec2} (v : Vec2)
    (h : collide ballPos ballSize paddlePos paddleSize = some Collision.Left
       ∨ collide ballPos ballSize paddlePos paddleSize = some Collision.Right) :
    paddleCheck ballPos ballSize paddlePos paddleSize v
      = (⟨-v.x, (ballPos.y - paddlePos.y) * BOUNCE_ANGLE_MULTIPLIER⟩,
         [CollisionEvent.Bounce]) := by
  rcases h with h | h <;>
    simp [paddleCheck, h, bounce_off_paddle]

/-- A `Top`, `Bottom` or `Inside` classification leaves `paddleCheck` inert. -/
theorem paddleCheck_ignored {ballPos ballSize paddlePos paddleSize : Vec2} (v : Vec2)
    (h : collide ballPos ballSize paddlePos paddleSize = some Collision.Top
       ∨ collide ballPos ballSize paddlePos paddleSize = some Collision.Bottom
       ∨ collide ballPos ballSize paddlePos paddleSize = some Collision.Inside) :
    paddleCheck ballPos ballSize paddlePos paddleSize v = (v, []) := by
  rcases h with h | h | h <;>
    simp [paddleCheck, h]

/-- No overlap leaves `paddleCheck` inert. -/
theorem paddleCheck_none {ballPos ballSize paddlePos paddleSize : Vec2} (v : Vec2)
    (h : collide ballPos ballSize paddlePos paddleSize = none) :
    paddleCheck ballPos ballSize paddlePos paddleSize v = (v, []) := by
  simp [paddleCheck, h]

/-- Each paddle check keeps or negates the horizontal velocity. -/
theorem paddleCheck_x (ballPos ballSize paddlePos paddleSize v : Vec2) :
    ((paddleCheck ballPos ballSize paddlePos paddleSize v).1).x = v.x
    ∨ ((paddleCheck ballPos ballSize paddlePos paddleSize v).1).x = -v.x := by
  unfold paddleCheck
  rcases hc : collide ballPos ballSize paddlePos paddleSize with _ | c
  · left; rfl
  · cases c <;> simp [bounce_off_paddle]

/-- The paddle loop keeps or negates the horizontal velocity. -/
theorem paddleLoop_x (ballPos ballSize : Vec2) (ps : List Vec2) (v : Vec2) :
    ((paddleLoop ballPos ballSize ps v).1).x = v.x
    ∨ ((paddleLoop ballPos ballSize ps v).1).x = -v.x := by
  induction ps generalizing v with
  | nil => left; rfl
  | cons p ps ih =>
    rcases paddleCheck_x ballPos ballSize p PADDLE_SIZE v with h | h <;>
      rcases ih ((paddleCheck ballPos ballSize p PADDLE_SIZE v).1) with h2 | h2 <;>
      simp [paddleLoop, h2, h]

/-- The wall step never changes the horizontal velocity. -/
theorem wallStep_x (b : BallState) : ((wallStep b).1).x = b.vel.x := by
  unfold wallStep
  split <;> rfl

/-- Exact score deltas of one `process_collisions` run with a ball present:
the player counter moves by the right-gutter indicator, the opponent counter
by the left-gutter indicator. -/
theorem resolve_score (w : World) (b : BallState) (hb : w.ball = some b) :
    (process_collisions w).scoreboard.player
      = w.scoreboard.player + (if (right_gutter_collision b).isSome then 1 else 0)
    ∧ (process_collisions w).scoreboard.opponent
      = w.scoreboard.opponent + (if (left_gutter_collision b).isSome then 1 else 0) := by
  rw [process_collisions_eq_resolve w b hb]
  exact ⟨rfl, rfl⟩

/-- Without a ball, `process_collisions` leaves the scoreboard alone. -/
theorem process_collisions_score_none (w : World) (hb : w.ball = none) :
    (process_collisions w).scoreboard = w.scoreboard := by
  unfold process_collisions
  rw [hb]

/-- The scoreboard never decreases across one `process_collisions` run. -/
theorem process_collisions_score_mono (w : World) :
    w.scoreboard.player ≤ (process_collisions w).scoreboard.player
    ∧ w.scoreboard.opponent ≤ (process_collisions w).scoreboard.opponent := by
  rcases hb : w.ball with _ | b
  · rw [process_collisions_score_none w hb]
    exact ⟨le_refl _, le_refl _⟩
  · rcases resolve_score w b hb with ⟨hp, ho⟩
    rw [hp, ho]
    exact ⟨Nat.le_add_right _ _, Nat.le_add_right _ _⟩

/-- The controllers and the integrator do not touch the scoreboard. -/
theorem pre_collision_score (ds : List ℚ) (w : World) :
    (apply_velocity (opponent_controller (player_controller ds w))).scoreboard
      = w.scoreboard := by
  unfold apply_velocity opponent_controller player_controller
  split
  · split <;> rfl
  · rfl

/-- The spawner does not touch the scoreboard. -/
theorem ball_spawner_score (d : ℚ) (w : World) :
    (ball_spawner d w).scoreboard = w.scoreboard := by
  unfold ball_spawner
  rcases hj : (w.spawnTimer.tick d).justFinished with _ | _ <;> simp [hj]

/-- Any single scheduler step leaves both score counters non-decreasing. -/
theorem runStep_score_mono (s : GameStep) (w : World) :
    w.scoreboard.player ≤ (runStep s w).scoreboard.player
    ∧ w.scoreboard.opponent ≤ (runStep s w).scoreboard.opponent := by
  cases s with
  | fixed ds =>
    have h := process_collisions_score_mono
      (apply_velocity (opponent_controller (player_controller ds w)))
    rw [pre_collision_score ds w] at h
    exact h
  | frame d =>
    rw [runStep, ball_spawner_score d w]
    exact ⟨le_refl _, le_refl _⟩

/-- Both score counters are non-decreasing along any step sequence. -/
theorem runSteps_score_mono (steps : List GameStep) (w : World) :
    w.scoreboard.player ≤ (runSteps steps w).scoreboard.player
    ∧ w.scoreboard.opponent ≤ (runSteps steps w).scoreboard.opponent := by
  induction steps generalizing w with
  | nil => exact ⟨le_refl _, le_refl _⟩
  | cons s ss ih =>
    rcases runStep_score_mono s w with ⟨h1, h2⟩
    rcases ih (runStep s w) with ⟨h3, h4⟩
    exact ⟨le_trans h1 h3, le_trans h2 h4⟩

/-- Velocity invariant: an existing ball's horizontal speed is the serve
speed up to sign. -/
def ballXInv (w : World) : Prop :=
  ∀ b, w.ball = some b → b.vel.x = BALL_SPEED ∨ b.vel.x = -BALL_SPEED

/-- The controllers and integrator preserve the ball velocity entirely. -/
theorem pre_collision_ball_vel (ds : List ℚ) (w : World) :
    (apply_velocity (opponent_controller (player_controller ds w))).ball
      = w.ball.map (fun b =>
          { b with pos := ⟨b.pos.x + b.vel.x * TIME_STEP, b.pos.y + b.vel.y * TIME_STEP⟩ }) := by
  unfold apply_velocity opponent_controller player_controller
  split
  · split <;> rfl
  · rfl

/-- `process_collisions` preserves the horizontal-speed invariant. -/
theorem process_collisions_inv (w : World) (h : ballXInv w) :
    ballXInv (process_collisions w) := by
  rcases hb : w.ball with _ | b
  · intro b2 hb2
    unfold process_collisions at hb2
    rw [hb] at hb2
    exact absurd hb2 (by simp)
  · intro b2 hb2
    rw [process_collisions_eq_resolve w b hb] at hb2
    unfold resolveBall at hb2
    rcases hd : ((left_gutter_collision b).isSome || (right_gutter_collision b).isSome) with _ | _
    · simp only [hd, Bool.false_eq_true, if_false, Option.some.injEq] at hb2
      have hx : b2.vel.x
          = ((paddleLoop b.pos b.size (colliders w) (wallStep b).1).1).x := by
        rw [← hb2]
      rcases paddleLoop_x b.pos b.size (colliders w) (wallStep b).1 with hpl | hpl <;>
        rcases h b hb with hinv | hinv <;>
        rw [hx, hpl, wallStep_x] <;> simp [hinv]
    · simp only [hd, if_true] at hb2
      exact absurd hb2 (by simp)

/-- `ball_spawner` establishes or preserves the horizontal-speed invariant. -/
theorem ball_spawner_inv (d : ℚ) (w : World) (h : ballXInv w) :
    ballXInv (ball_spawner d w) := by
  intro b hb
  unfold ball_spawner at hb
  rcases hj : (w.spawnTimer.tick d).justFinished with _ | _
  · simp only [hj, Bool.false_eq_true, if_false] at hb
    exact h b hb
  · simp only [hj, if_true, Option.some.injEq] at hb
    rcases ht : w.playerTurn with _ | _ <;>
      rw [← hb] <;> simp [ht, BALL_SPEED]

/-- Each scheduler step preserves the horizontal-speed invariant. -/
theorem runStep_inv (s : GameStep) (w : World) (h : ballXInv w) :
    ballXInv (runStep s w) := by
  cases s with
  | fixed ds =>
    apply process_collisions_inv
    intro b hb
    rw [pre_collision_ball_vel ds w] at hb
    rcases hw : w.ball with _ | b0
    · rw [hw] at hb
      exact absurd hb (by simp)
    · rw [hw] at hb
      simp only [Option.map_some', Option.some.injEq] at hb
      rcases h b0 hw with hx | hx <;> rw [← hb] <;> simp [hx]
  | frame d => exact ball_spawner_inv d w h

/-- Step sequences preserve the horizontal-speed invariant. -/
theorem runSteps_inv (steps : List GameStep) (w : World) (h : ballXInv w) :
    ballXInv (runSteps steps w) := by
  induction steps generalizing w with
  | nil => exact h
  | cons s ss ih => exact ih (runStep s w) (runStep_inv s w h)

/-- A tick that finishes an unfinished timer reports `justFinished`. -/
theorem timer_tick_justFinished (t : Timer) (d : ℚ)
    (h1 : t.finished = false) (h2 : (t.tick d).finished = true) :
    (t.tick d).justFinished = true := by
  unfold Timer.tick at h2 ⊢
  rw [h1] at h2 ⊢
  simp only [Bool.false_eq_true, if_false] at h2 ⊢
  by_cases hge : t.elapsed + d ≥ t.duration
  · rw [if_pos hge]
  · rw [if_neg hge] at h2
    exact absurd h2 (by simp)

/-- Ticking an already-finished timer only clears `justFinished`. -/
theorem timer_tick_of_finished (t : Timer) (d : ℚ) (h : t.finished = true) :
    t.tick d = { t with justFinished := false } := by
  unfold Timer.tick
  rw [h]
  simp

/-- With a finished spawn timer, `ball_spawner` only ticks the timer. -/
theorem ball_spawner_idle (d : ℚ) (w : World) (h : w.spawnTimer.finished = true) :
    ball_spawner d w
      = { w with spawnTimer := { w.spawnTimer with justFinished := false } } := by
  unfold ball_spawner
  rw [timer_tick_of_finished w.spawnTimer d h]
  simp

/-- With a finished spawn timer, no frame sequence ever spawns: the ball and
the turn flag are untouched and the timer stays finished. -/
theorem runFrames_no_spawn (ds : List ℚ) (w : World)
    (h : w.spawnTimer.finished = true) :
    (runFrames ds w).ball = w.ball
    ∧ (runFrames ds w).playerTurn = w.playerTurn
    ∧ (runFrames ds w).spawnTimer.finished = true := by
  induction ds generalizing w with
  | nil => exact ⟨rfl, rfl, h⟩
  | cons d ds ih =>
    have hstep := ball_spawner_idle d w h
    have hfin : (ball_spawner d w).spawnTimer.finished = true := by
      rw [hstep]
      exact h
    rcases ih (ball_spawner d w) hfin with ⟨hball, hturn, hf⟩
    refine ⟨?_, ?_, hf⟩
    · rw [runFrames, hball, hstep]
    · rw [runFrames, hturn, hstep]

-- Claim theorems.

/-- C2 counterexample: the claim says the first serve leaves the ball with
velocity (-300, 0) and position approximately (-5, 0) after one tick.  In
the code `BALL_SPEED = 500`, so the first serve velocity is (-500, 0) — not
(-300, 0) — and after one 1/60 s tick the position is (-25/3, 0) ≈
(-8.33, 0), not approximately (-5, 0). -/
theorem C2_center_serve_counterexample :
    (ball_spawner (1/2) initialWorld).ball
      = some { pos := ⟨0, 0⟩, vel := ⟨-500, 0⟩, size := BALL_SIZE }
    ∧ ((ball_spawner (1/2) initialWorld).ball).map (fun b => b.vel) ≠ some ⟨-300, 0⟩
    ∧ ((fixedTick [] (ball_spawner (1/2) initialWorld)).ball).map (fun b => b.pos)
        ≠ some ⟨-5, 0⟩ := by
  decide

/-- C2 amended: on the first serve (the 0.5 s spawn timer firing from the
initial state) the ball spawns at (0, 0) with velocity (-500, 0), and after
one fixed 1/60 s tick its position is (-25/3, 0) ≈ (-8.33, 0). -/
theorem C2_center_serve :
    (ball_spawner (1/2) initialWorld).ball
      = some { pos := ⟨0, 0⟩, vel := ⟨-500, 0⟩, size := BALL_SIZE }
    ∧ (fixedTick [] (ball_spawner (1/2) initialWorld)).ball
      = some { pos := ⟨-25/3, 0⟩, vel := ⟨-500, 0⟩, size := BALL_SIZE } := by
  decide

/-- Scenario state for C3: ball at (0, 280) with velocity (0, 400). -/
def ballWallScenario : BallState := { pos := ⟨0, 280⟩, vel := ⟨0, 400⟩, size := BALL_SIZE }

/-- World holding the C3 scenario ball. -/
def wallScenarioWorld : World := { initialWorld with ball := some ballWallScenario }

/-- C3 counterexample: from y = 280 with velocity (0, 400), the next fixed
tick moves the ball to y = 280 + 400/60 ≈ 286.67, still 4-unit-short of the
wall strip that starts at y = 300, so no overlap is detected: the velocity
stays (0, 400) and no event is sent. -/
theorem C3_wall_bounce_counterexample :
    ((fixedTick [] wallScenarioWorld).ball).map (fun b => b.vel) = some ⟨0, 400⟩
    ∧ (fixedTick [] wallScenarioWorld).events = [] := by
  decide

/-- C3 amended: from y = 280 with velocity (0, 400) the first two ticks
detect no wall overlap; the third tick (ball center y = 300, upper edge
y = 304 inside the strip) detects the overlap and flips the vertical
velocity to -400, sending a `Bounce` event. -/
theorem C3_wall_bounce :
    ((fixedTick [] wallScenarioWorld).ball).map (fun b => b.vel) = some ⟨0, 400⟩
    ∧ ((fixedTick [] (fixedTick [] wallScenarioWorld)).ball).map (fun b => b.vel)
        = some ⟨0, 400⟩
    ∧ (fixedTick [] (fixedTick [] (fixedTick [] wallScenarioWorld))).ball
        = some { pos := ⟨0, 300⟩, vel := ⟨0, -400⟩, size := BALL_SIZE }
    ∧ CollisionEvent.Bounce
        ∈ (fixedTick [] (fixedTick [] (fixedTick [] wallScenarioWorld))).events := by
  decide

/-- C4: whenever the ball-versus-paddle AABB test classifies the hit as
`Left` or `Right`, the per-paddle resolver negates the horizontal velocity,
sets the vertical velocity to (ball.y - paddle.y) × 22, and emits one
`Bounce` event. -/
theorem C4_paddle_bounce (ballPos ballSize paddlePos paddleSize v : Vec2)
    (h : collide ballPos ballSize paddlePos paddleSize = some Collision.Left
       ∨ collide ballPos ballSize paddlePos paddleSize = some Collision.Right) :
    paddleCheck ballPos ballSize paddlePos paddleSize v
      = (⟨-v.x, (ballPos.y - paddlePos.y) * BOUNCE_ANGLE_MULTIPLIER⟩,
         [CollisionEvent.Bounce]) :=
  paddleCheck_hit v h

/-- C4 witness: a concrete `Right` hit — ball at (-369, 10) against the
player paddle at (-374, 0) with incoming velocity (-500, 77) — bounces to
velocity (500, 220) with one `Bounce` event. -/
theorem C4_paddle_bounce_witness :
    paddleCheck ⟨-369, 10⟩ BALL_SIZE ⟨-374, 0⟩ PADDLE_SIZE ⟨-500, 77⟩
      = (⟨500, 220⟩, [CollisionEvent.Bounce]) := by
  rw [C4_paddle_bounce ⟨-369, 10⟩ BALL_SIZE ⟨-374, 0⟩ PADDLE_SIZE ⟨-500, 77⟩
    (Or.inr (by decide))]
  decide

/-- C5: a `Top`, `Bottom` or `Inside` classification against a paddle leaves
both velocity components unchanged and emits no event for that paddle. -/
theorem C5_paddle_side_filter (ballPos ballSize paddlePos paddleSize v : Vec2)
    (h : collide ballPos ballSize paddlePos paddleSize = some Collision.Top
       ∨ collide ballPos ballSize paddlePos paddleSize = some Collision.Bottom
       ∨ collide ballPos ballSize paddlePos paddleSize = some Collision.Inside) :
    paddleCheck ballPos ballSize paddlePos paddleSize v = (v, []) :=
  paddleCheck_ignored v h

/-- C5 witness: a concrete `Top` overlap — ball at (-374, 25) above the
player paddle at (-374, 0) — leaves the velocity (9, -4) untouched with no
event. -/
theorem C5_paddle_side_filter_witness :
    paddleCheck ⟨-374, 25⟩ BALL_SIZE ⟨-374, 0⟩ PADDLE_SIZE ⟨9, -4⟩ = (⟨9, -4⟩, []) :=
  C5_paddle_side_filter ⟨-374, 25⟩ BALL_SIZE ⟨-374, 0⟩ PADDLE_SIZE ⟨9, -4⟩
    (Or.inl (by decide))

/-- C10: a `Left`/`Right` classification needs AABB overlap, which bounds
the strike offset |ball.y - paddle.y| by half the paddle height plus half
the ball height (23 + 4 = 27); the resulting vertical speed is therefore
strictly below 27 × 22 = 594. -/
theorem C10_spin_bounded (ballPos paddlePos v : Vec2)
    (h : collide ballPos BALL_SIZE paddlePos PADDLE_SIZE = some Collision.Left
       ∨ collide ballPos BALL_SIZE paddlePos PADDLE_SIZE = some Collision.Right) :
    |ballPos.y - paddlePos.y| < 27
    ∧ |((paddleCheck ballPos BALL_SIZE paddlePos PADDLE_SIZE v).1).y| < 594 := by
  have hov : overlapping ballPos BALL_SIZE paddlePos PADDLE_SIZE := by
    rcases h with h | h <;> exact overlapping_of_collide_eq_some h
  rcases hov with ⟨_, _, h3, h4⟩
  have hb8 : BALL_SIZE.y = 8 := rfl
  have hp46 : PADDLE_SIZE.y = 46 := rfl
  rw [hb8, hp46] at h3 h4
  have hdy : |ballPos.y - paddlePos.y| < 27 := by
    rw [abs_lt]
    constructor <;> linarith
  refine ⟨hdy, ?_⟩
  rw [paddleCheck_hit v h]
  show |(ballPos.y - paddlePos.y) * BOUNCE_ANGLE_MULTIPLIER| < 594
  have h22 : |(ballPos.y - paddlePos.y) * BOUNCE_ANGLE_MULTIPLIER|
      = |ballPos.y - paddlePos.y| * 22 := by
    rw [abs_mul]
    norm_num [BOUNCE_ANGLE_MULTIPLIER]
  rw [h22]
  linarith

/-- C10 witness: the concrete `Right` hit at offset 10 has |10| < 27 and a
post-bounce vertical speed |220| < 594. -/
theorem C10_spin_bounded_witness :
    |((⟨-369, 10⟩ : Vec2)).y - ((⟨-374, 0⟩ : Vec2)).y| < 27
    ∧ |((paddleCheck ⟨-369, 10⟩ BALL_SIZE ⟨-374, 0⟩ PADDLE_SIZE ⟨3, 4⟩).1).y| < 594 :=
  C10_spin_bounded ⟨-369, 10⟩ ⟨-374, 0⟩ ⟨3, 4⟩ (Or.inr (by decide))

/-- C1: whenever the ball exists and its AABB overlaps the right gutter
strip, the tick destroys the ball, resets the serve timer to its full delay,
increments the player score by one and emits a `Goal` — mirroring the left
gutter's behaviour; and the overlap test succeeds at every vertical ball
position inside the court (for any x within the strip's horizontal reach),
so the behaviour covers the whole right court edge like the left one. -/
theorem C1_right_gutter_goal :
    (∀ w b, w.ball = some b → (right_gutter_collision b).isSome = true →
      (process_collisions w).ball = none
      ∧ (process_collisions w).spawnTimer = w.spawnTimer.reset
      ∧ (process_collisions w).scoreboard.player = w.scoreboard.player + 1
      ∧ CollisionEvent.Goal ∈ (process_collisions w).events)
    ∧ (∀ x y : ℚ, 383 < x → x < 417 → -300 ≤ y → y ≤ 300 → ∀ vel,
        (right_gutter_collision { pos := ⟨x, y⟩, vel := vel, size := BALL_SIZE }).isSome
          = true) := by
  constructor
  · intro w b hb hr
    rw [process_collisions_eq_resolve w b hb]
    unfold resolveBall
    simp [hr, List.mem_append]
  · intro x y hx1 hx2 hy1 hy2 vel
    unfold right_gutter_collision
    apply collide_isSome_of_overlapping
    unfold overlapping BALL_SIZE WINDOW_WIDTH WINDOW_HEIGHT
    refine ⟨?_, ?_, ?_, ?_⟩ <;> norm_num <;> linarith

/-- Concrete right-gutter ball for the C1 witness. -/
def ballRightGoal : BallState := { pos := ⟨400, 0⟩, vel := ⟨500, 30⟩, size := BALL_SIZE }

/-- World holding the C1 witness ball. -/
def rightGoalWorld : World := { initialWorld with ball := some ballRightGoal }

/-- C1 witness: a ball at (400, 0) overlaps the right gutter; the tick
despawns it, resets the timer, scores the player from 0 to 1 and emits
`Goal`; and the strip test succeeds at the concrete in-court point
(400, 10). -/
theorem C1_right_gutter_goal_witness :
    ((process_collisions rightGoalWorld).ball = none
      ∧ (process_collisions rightGoalWorld).spawnTimer
          = rightGoalWorld.spawnTimer.reset
      ∧ (process_collisions rightGoalWorld).scoreboard.player
          = rightGoalWorld.scoreboard.player + 1
      ∧ CollisionEvent.Goal ∈ (process_collisions rightGoalWorld).events)
    ∧ (right_gutter_collision
        { pos := ⟨400, 10⟩, vel := ⟨1, 1⟩, size := BALL_SIZE }).isSome = true :=
  ⟨C1_right_gutter_goal.1 rightGoalWorld ballRightGoal rfl (by decide),
   C1_right_gutter_goal.2 400 10 (by norm_num) (by norm_num) (by norm_num) (by norm_num)
     ⟨1, 1⟩⟩

/-- C6: for every ball state overlapping the top or bottom wall strip (or
both) the wall check negates the vertical velocity exactly once net while
leaving the horizontal velocity unchanged, emitting one `Bounce`; and in a
tick with no gutter overlap and no paddle hit this is exactly the resulting
ball velocity after the whole resolver. -/
theorem C6_wall_inversion :
    (∀ b : BallState,
      (top_wall_collision b).isSome = true ∨ (bottom_wall_collision b).isSome = true →
      wallStep b = (⟨b.vel.x, -b.vel.y⟩, [CollisionEvent.Bounce]))
    ∧ (∀ w b, w.ball = some b →
        ((top_wall_collision b).isSome = true
          ∨ (bottom_wall_collision b).isSome = true) →
        left_gutter_collision b = none →
        right_gutter_collision b = none →
        collide b.pos b.size w.playerPos PADDLE_SIZE = none →
        collide b.pos b.size w.opponentPos PADDLE_SIZE = none →
        (process_collisions w).ball = some { b with vel := ⟨b.vel.x, -b.vel.y⟩ }
        ∧ CollisionEvent.Bounce ∈ (process_collisions w).events) := by
  have hwall : ∀ b : BallState,
      (top_wall_collision b).isSome = true ∨ (bottom_wall_collision b).isSome = true →
      wallStep b = (⟨b.vel.x, -b.vel.y⟩, [CollisionEvent.Bounce]) := by
    intro b hw
    unfold wallStep
    rcases hw with h | h <;> simp [h]
  refine ⟨hwall, ?_⟩
  intro w b hb hw hl hr hp ho
  have hloop : ∀ v, paddleLoop b.pos b.size (colliders w) v = (v, []) := by
    intro v
    simp [paddleLoop, colliders, paddleCheck_none, hp, ho]
  rw [process_collisions_eq_resolve w b hb]
  unfold resolveBall
  simp only [hwall b hw, hl, hr, hloop, Option.isSome_none, Bool.or_self,
    Bool.false_eq_true, if_false]
  simp

/-- Concrete wall-bounce ball for the C6 witness. -/
def ballWallHit : BallState := { pos := ⟨0, 300⟩, vel := ⟨7, 400⟩, size := BALL_SIZE }

/-- World holding the C6 witness ball. -/
def wallHitWorld : World := { initialWorld with ball := some ballWallHit }

/-- C6 witness: the ball at (0, 300) with velocity (7, 400) overlaps the
upper wall strip; after the resolver its velocity is (7, -400) and a
`Bounce` event is present. -/
theorem C6_wall_inversion_witness :
    wallStep ballWallHit
        = (⟨ballWallHit.vel.x, -ballWallHit.vel.y⟩, [CollisionEvent.Bounce])
    ∧ ((process_collisions wallHitWorld).ball
        = some { ballWallHit with vel := ⟨ballWallHit.vel.x, -ballWallHit.vel.y⟩ }
      ∧ CollisionEvent.Bounce ∈ (process_collisions wallHitWorld).events) :=
  ⟨C6_wall_inversion.1 ballWallHit (Or.inr (by decide)),
   C6_wall_inversion.2 wallHitWorld ballWallHit rfl (Or.inr (by decide)) (by decide)
     (by decide) (by decide) (by decide)⟩

/-- C7: across any sequence of scheduler steps both score counters are
non-decreasing; a tick with a ball present moves the player counter by
exactly the right-gutter indicator and the opponent counter by exactly the
left-gutter indicator (so a tick overlapping both gutters increments both);
and no other system — controllers, integrator, spawner, or a tick without a
ball — changes the scoreboard. -/
theorem C7_goal_monotonicity :
    (∀ steps w, w.scoreboard.player ≤ (runSteps steps w).scoreboard.player
              ∧ w.scoreboard.opponent ≤ (runSteps steps w).scoreboard.opponent)
    ∧ (∀ w b, w.ball = some b →
        (process_collisions w).scoreboard.player
          = w.scoreboard.player + (if (right_gutter_collision b).isSome then 1 else 0)
        ∧ (process_collisions w).scoreboard.opponent
          = w.scoreboard.opponent + (if (left_gutter_collision b).isSome then 1 else 0))
    ∧ (∀ w, w.ball = none → (process_collisions w).scoreboard = w.scoreboard)
    ∧ (∀ ds w,
        (apply_velocity (opponent_controller (player_controller ds w))).scoreboard
          = w.scoreboard)
    ∧ (∀ d w, (ball_spawner d w).scoreboard = w.scoreboard) :=
  ⟨runSteps_score_mono, resolve_score, process_collisions_score_none,
   pre_collision_score, ball_spawner_score⟩

/-- Concrete left-gutter ball for the C7 witness. -/
def ballLeftGoal : BallState := { pos := ⟨-400, 0⟩, vel := ⟨-500, 0⟩, size := BALL_SIZE }

/-- World holding the C7 witness ball. -/
def leftGoalWorld : World := { initialWorld with ball := some ballLeftGoal }

/-- C7 witness: at the concrete left-gutter state the player counter does
not decrease over a tick and the opponent counter moves by exactly the
left-gutter indicator. -/
theorem C7_goal_monotonicity_witness :
    (leftGoalWorld.scoreboard.player
        ≤ (runSteps [GameStep.fixed []] leftGoalWorld).scoreboard.player)
    ∧ (process_collisions leftGoalWorld).scoreboard.opponent
        = leftGoalWorld.scoreboard.opponent
          + (if (left_gutter_collision ballLeftGoal).isSome then 1 else 0) :=
  ⟨(C7_goal_monotonicity.1 [GameStep.fixed []] leftGoalWorld).1,
   (C7_goal_monotonicity.2.1 leftGoalWorld ballLeftGoal rfl).2⟩

/-- C8: on the frame where the serve timer transitions from not-expired to
expired, exactly one ball is spawned at the court center with horizontal
velocity `BALL_SPEED × (-1 if the turn flag else +1)` and zero vertical
velocity; the turn flag flips; and since the timer is then finished, no
later frame spawns again until a goal resets it. -/
theorem C8_serve_scheduler (w : World) (d : ℚ)
    (h1 : w.spawnTimer.finished = false)
    (h2 : (w.spawnTimer.tick d).finished = true) :
    (ball_spawner d w).ball
      = some { pos := ⟨0, 0⟩,
               vel := ⟨BALL_SPEED * (if w.playerTurn then -1 else 1), 0⟩,
               size := BALL_SIZE }
    ∧ (ball_spawner d w).playerTurn = !w.playerTurn
    ∧ (ball_spawner d w).spawnTimer.finished = true
    ∧ ∀ ds, (runFrames ds (ball_spawner d w)).ball = (ball_spawner d w).ball
          ∧ (runFrames ds (ball_spawner d w)).playerTurn
              = (ball_spawner d w).playerTurn := by
  have hj : (w.spawnTimer.tick d).justFinished = true :=
    timer_tick_justFinished w.spawnTimer d h1 h2
  have hspawn : ball_spawner d w
      = { w with
          spawnTimer := w.spawnTimer.tick d
          ball := some { pos := ⟨0, 0⟩,
                         vel := ⟨BALL_SPEED * (if w.playerTurn then -1 else 1), 0⟩,
                         size := BALL_SIZE }
          playerTurn := !w.playerTurn } := by
    unfold ball_spawner
    rw [if_pos hj]
  have hfin : (ball_spawner d w).spawnTimer.finished = true := by
    rw [hspawn]
    exact h2
  refine ⟨by rw [hspawn], by rw [hspawn], hfin, ?_⟩
  intro ds
  rcases runFrames_no_spawn ds (ball_spawner d w) hfin with ⟨hball, hturn, _⟩
  exact ⟨hball, hturn⟩

/-- C8 witness: from the initial state, one 0.5 s frame fires the timer:
the ball spawns at the center moving left at speed 500 (player's turn), the
flag flips, and two further frames spawn nothing. -/
theorem C8_serve_scheduler_witness :
    ((ball_spawner (1/2) initialWorld).ball
        = some { pos := ⟨0, 0⟩,
                 vel := ⟨BALL_SPEED * (if initialWorld.playerTurn then -1 else 1), 0⟩,
                 size := BALL_SIZE }
      ∧ (ball_spawner (1/2) initialWorld).playerTurn = !initialWorld.playerTurn
      ∧ (ball_spawner (1/2) initialWorld).spawnTimer.finished = true
      ∧ ∀ ds, (runFrames ds (ball_spawner (1/2) initialWorld)).ball
                = (ball_spawner (1/2) initialWorld).ball
            ∧ (runFrames ds (ball_spawner (1/2) initialWorld)).playerTurn
                = (ball_spawner (1/2) initialWorld).playerTurn) :=
  C8_serve_scheduler initialWorld (1/2) (by decide) (by decide)

/-- C9: in any state reachable from session start by scheduler steps, an
existing ball's horizontal velocity is never zero (it is ±BALL_SPEED
throughout its lifetime: set at spawn, preserved by wall bounces, negated
by paddle bounces), so its velocity is never the zero vector. -/
theorem C9_ball_velocity_nonzero (steps : List GameStep) (b : BallState)
    (hb : (runSteps steps initialWorld).ball = some b) :
    b.vel.x ≠ 0 ∧ b.vel ≠ ⟨0, 0⟩ := by
  have hinv : ballXInv (runSteps steps initialWorld) := by
    apply runSteps_inv
    intro b0 hb0
    exact absurd hb0 (by simp [initialWorld])
  have hx := hinv b hb
  have hxne : b.vel.x ≠ 0 := by
    rcases hx with h | h <;> rw [h] <;> norm_num [BALL_SPEED]
  refine ⟨hxne, ?_⟩
  intro hv
  apply hxne
  rw [hv]

/-- C9 witness: after the single frame that serves the first ball, that
ball's velocity (-500, 0) has nonzero horizontal component and is not the
zero vector. -/
theorem C9_ball_velocity_nonzero_witness :
    ({ pos := ⟨0, 0⟩, vel := ⟨-500, 0⟩, size := BALL_SIZE } : BallState).vel.x ≠ 0
    ∧ ({ pos := ⟨0, 0⟩, vel := ⟨-500, 0⟩, size := BALL_SIZE } : BallState).vel
        ≠ ⟨0, 0⟩ :=
  C9_ball_velocity_nonzero [GameStep.frame (1/2)] _ (by decide)

end BevyPong

-- Smoke tests (kernel-checked, concrete): basic collide behaviour.
example : BevyPong.collide ⟨0, 0⟩ ⟨8, 8⟩ ⟨100, 0⟩ ⟨8, 8⟩ = none := by decide

example : BevyPong.collide ⟨-369, 10⟩ ⟨8, 8⟩ ⟨-374, 0⟩ ⟨6, 46⟩
    = some BevyPong.Collision.Right := by decide

example : BevyPong.collide ⟨-374, 25⟩ ⟨8, 8⟩ ⟨-374, 0⟩ ⟨6, 46⟩
    = some BevyPong.Collision.Top := by decide

-- First serve: timer fires after 0.5 s, ball spawns at center moving left.
example :
    (BevyPong.ball_spawner (1/2) BevyPong.initialWorld).ball
      = some ⟨⟨0, 0⟩, ⟨-500, 0⟩, ⟨8, 8⟩⟩ := by decide

-- One fixed tick after the first serve: the ball has moved left by 500/60.
example :
    ((BevyPong.fixedTick [] (BevyPong.ball_spawner (1/2) BevyPong.initialWorld)).ball).map
        BevyPong.BallState.pos = some ⟨-25/3, 0⟩ := by decide
